import Mathlib

/-!
Verification development for the example script
`src/examples/7_cuda_scapp/4_scapp_acq_fifo_fft.py` of the spcm repository.

The script opens a digitizer card, streams fixed-size blocks of raw integer
samples to the GPU, converts them to volts, takes a one-sided FFT, scales the
result to dBFS, copies the spectrum to the host and periodically refreshes a
plot.  We embed the script's own logic shallowly: the two elementwise GPU
kernels become functions on lists, the acquisition loop becomes a step
function on an explicit state record, floating-point arithmetic is modelled
by exact rational / real arithmetic, and the fallible SDK calls are modelled
in the `Except` monad.
-/

namespace Scapp

/-- `notify_samples = 64 * units.KiS`; its magnitude in samples is 64 * 1024. -/
def notify_samples_magnitude : ℕ := 64 * 1024

/-- `num_fft_samples = notify_samples_magnitude // 2 + 1`, the length of the
one-sided FFT result (Python floor division). -/
def num_fft_samples : ℕ := notify_samples_magnitude / 2 + 1

/-- `plot_divider = 10`: plot 1 in 10 data blocks. -/
def plot_divider : ℕ := 10

/-- `factor_signal_to_volt = amplitude.to(units.V).magnitude / max_value`. -/
def factor_signal_to_volt (amplitude_V : ℚ) (max_value : ℤ) : ℚ :=
  amplitude_V / max_value

/-- Body of the elementwise kernel `signal_to_volt`:
`convertedData = rawData * voltPerLSB`. -/
def signal_to_volt (rawData : ℤ) (voltPerLSB : ℚ) : ℚ :=
  (rawData : ℚ) * voltPerLSB

/-- The elementwise kernel `signal_to_volt` applied to a whole buffer:
every element of the output buffer is `rawData * voltPerLSB` for the raw
element at the same index. -/
def kernel_signal_to_volt (rawData : List ℤ) (voltPerLSB : ℚ) : List ℚ :=
  rawData.map (fun x => signal_to_volt x voltPerLSB)

/-- One bin of the one-sided discrete Fourier transform of a real-valued
input, `X_k = sum_n x_n * exp(-2 pi i k n / N)`: the mathematical content of
the GPU library's real-input FFT. -/
noncomputable def dftBin (x : List ℚ) (k : ℕ) : ℂ :=
  ∑ n ∈ Finset.range x.length,
    ((x.getD n 0 : ℚ) : ℂ) *
      Complex.exp (-2 * Real.pi * Complex.I * k * n / x.length)

/-- `cp.fft.rfft`: the one-sided complex spectrum of a real-valued array,
bins `0 .. length/2` (so `length/2 + 1` bins). -/
noncomputable def rfft (x : List ℚ) : List ℂ :=
  (List.range (x.length / 2 + 1)).map (dftBin x)

/-- Body of the elementwise kernel `fft_to_spectrum`:
`spectrumData = 20.0f * log10f ( abs(fftData / thrust::complex<float>(numElem / 2.0f + 1.0f, 0.0f)) / fIR_V)`. -/
noncomputable def fft_to_spectrum (fftData : ℂ) (numElem : ℕ) (fIR_V : ℝ) : ℝ :=
  20 * Real.logb 10
    (Complex.abs (fftData / ((((numElem : ℝ) / 2 + 1 : ℝ)) : ℂ)) / fIR_V)

/-- The elementwise kernel `fft_to_spectrum` applied to a whole buffer. -/
noncomputable def kernel_fft_to_spectrum (fftData : List ℂ) (numElem : ℕ)
    (fIR_V : ℝ) : List ℝ :=
  fftData.map (fun z => fft_to_spectrum z numElem fIR_V)

/-- `np.fft.rfftfreq(n, d)`: the `n/2 + 1` sample frequencies
`[0, 1, ..., n/2] / (d*n)` of a one-sided FFT (numpy's documented formula,
`n` even here). -/
noncomputable def rfftfreq (n : ℕ) (d : ℝ) : List ℝ :=
  (List.range (n / 2 + 1)).map (fun k : ℕ => (k : ℝ) / (d * n))

/-- `freq = np.fft.rfftfreq(notify_samples_magnitude, 1/sample_rate)`. -/
noncomputable def freq (sample_rate : ℝ) : List ℝ :=
  rfftfreq notify_samples_magnitude (1 / sample_rate)

/-- The script-owned mutable state of the acquisition loop: the GPU voltage
buffer, the GPU spectrum buffer, the host-side spectrum copy, the plotted
line's Y-data, the number of chart redraws performed, and the iteration
counter. -/
structure LoopState where
  data_volt_gpu : List ℚ
  spectrum_gpu : List ℝ
  spectrum_cpu : List ℝ
  line_ydata : List ℝ
  draw_count : ℕ
  counter : ℕ

/-- The state right before the loop starts: `data_volt_gpu` and
`spectrum_gpu` are `cp.zeros` allocations, the plotted line starts at
`np.zeros_like(freq)`, `spectrum_cpu` is not yet assigned (empty), and
`counter = 0`. -/
def initState : LoopState :=
  { data_volt_gpu := List.replicate notify_samples_magnitude 0
    spectrum_gpu := List.replicate num_fft_samples 0
    spectrum_cpu := []
    line_ydata := List.replicate num_fft_samples 0
    draw_count := 0
    counter := 0 }

/-- One pass of the acquisition loop on a raw GPU block `data_raw_gpu`:
run `kernel_signal_to_volt`, take `cp.fft.rfft` of the voltage buffer, run
`kernel_fft_to_spectrum` on the FFT result, copy the spectrum to the host,
refresh the plot when `counter % plot_divider == 0`, increment the counter. -/
noncomputable def step (amplitude_magnitude_V : ℚ) (max_value : ℤ)
    (s : LoopState) (data_raw_gpu : List ℤ) : LoopState :=
  let data_volt_gpu := kernel_signal_to_volt data_raw_gpu
    (factor_signal_to_volt amplitude_magnitude_V max_value)
  let fftdata_gpu := rfft data_volt_gpu
  let spectrum_gpu := kernel_fft_to_spectrum fftdata_gpu
    notify_samples_magnitude ((amplitude_magnitude_V : ℝ))
  let spectrum_cpu := spectrum_gpu
  { data_volt_gpu := data_volt_gpu
    spectrum_gpu := spectrum_gpu
    spectrum_cpu := spectrum_cpu
    line_ydata := if s.counter % plot_divider = 0 then spectrum_cpu
      else s.line_ydata
    draw_count := s.draw_count + (if s.counter % plot_divider = 0 then 1 else 0)
    counter := s.counter + 1 }

/-- The whole acquisition loop over a finite list of raw blocks. -/
noncomputable def run (amplitude_magnitude_V : ℚ) (max_value : ℤ)
    (s : LoopState) (blocks : List (List ℤ)) : LoopState :=
  blocks.foldl (step amplitude_magnitude_V max_value) s

/-- The fallible calls the script makes into the SDK, the GPU library and
the card, in source order, each modelled as an `Except` value: the result
that call would produce, or the error it would raise.  `acquire` stands for
the whole iteration over the transfer object (a trigger timeout or transfer
overrun surfaces there). -/
structure SdkCalls (E : Type) where
  open_card : Except E Unit
  card_mode : Except E Unit
  set_timeout : Except E Unit
  trigger_or_mask : Except E Unit
  channel_amp : Except E ℚ
  max_sample_value : Except E ℤ
  clock_mode : Except E Unit
  sample_rate : Except E ℚ
  transfer_setup : Except E Unit
  compile_kernels : Except E Unit
  card_start : Except E Unit
  acquire : Except E (List (List ℤ))

/-- The script body as a sequence of the SDK calls in source order followed
by the processing loop; there is no exception handler anywhere, so the
result of the first failing call is the result of the whole script. -/
noncomputable def script {E : Type} (sdk : SdkCalls E) : Except E LoopState := do
  let _ ← sdk.open_card
  let _ ← sdk.card_mode
  let _ ← sdk.set_timeout
  let _ ← sdk.trigger_or_mask
  let amp ← sdk.channel_amp
  let maxv ← sdk.max_sample_value
  let _ ← sdk.clock_mode
  let _ ← sdk.sample_rate
  let _ ← sdk.transfer_setup
  let _ ← sdk.compile_kernels
  let _ ← sdk.card_start
  let blocks ← sdk.acquire
  pure (run amp maxv initState blocks)

/-- A concrete SDK trace whose acquisition raises error 7 and whose other
calls succeed. -/
def sdkTimeout : SdkCalls ℕ :=
  { open_card := .ok ()
    card_mode := .ok ()
    set_timeout := .ok ()
    trigger_or_mask := .ok ()
    channel_amp := .ok 1
    max_sample_value := .ok 32767
    clock_mode := .ok ()
    sample_rate := .ok 10
    transfer_setup := .ok ()
    compile_kernels := .ok ()
    card_start := .ok ()
    acquire := .error 7 }

lemma ok_bind {E α β : Type} (x : α) (f : α → Except E β) :
    (Except.ok x >>= f) = f x := rfl

lemma error_bind {E α β : Type} (e : E) (f : α → Except E β) :
    ((Except.error e : Except E α) >>= f) = Except.error e := rfl

lemma run_counter (amp : ℚ) (maxv : ℤ) :
    ∀ (blocks : List (List ℤ)) (s : LoopState),
      (run amp maxv s blocks).counter = s.counter + blocks.length := by
  intro blocks
  induction blocks with
  | nil => intro s; simp [run]
  | cons b bs ih =>
      intro s
      have hb : run amp maxv s (b :: bs) = run amp maxv (step amp maxv s b) bs := by
        simp [run]
      rw [hb, ih]
      simp [step]
      omega

/-- C1: the `fft_to_spectrum` kernel, invoked as in the loop with
`numElem = notify_samples_magnitude`, writes for every complex FFT bin the
dBFS magnitude `20 * log10(|bin / (N/2 + 1)| / amplitude_V)` where `N` is the
notify-block sample count and `amplitude_V` the channel amplitude in volts. -/
theorem C1_fft_to_spectrum_dbfs (fftData : List ℂ) (amp : ℝ) :
    kernel_fft_to_spectrum fftData notify_samples_magnitude amp
      = fftData.map (fun z =>
          20 * Real.logb 10
            (Complex.abs z / ((notify_samples_magnitude : ℝ) / 2 + 1) / amp)) := by
  simp only [kernel_fft_to_spectrum]
  congr 1
  funext z
  simp only [fft_to_spectrum]
  rw [map_div₀, Complex.abs_ofReal, abs_of_nonneg (by positivity)]

/-- C2: the `signal_to_volt` kernel, invoked with
`voltPerLSB = factor_signal_to_volt = amplitude_V / max_value`, converts every
raw sample `x` to `x * (amplitude_V / max_value)` at the same index. -/
theorem C2_signal_to_volt_conversion (rawData : List ℤ) (amp : ℚ) (maxv : ℤ) :
    kernel_signal_to_volt rawData (factor_signal_to_volt amp maxv)
      = rawData.map (fun x : ℤ => (x : ℚ) * (amp / (maxv : ℚ))) := rfl

/-- C3: the GPU spectrum buffer is allocated with length
`num_fft_samples = N/2 + 1`, and that is exactly the length of the one-sided
complex spectrum `rfft` returns for a real-valued input of length `N`; after
any loop pass on a block of length `N`, both the GPU spectrum buffer and its
host copy again have length `N/2 + 1`. -/
theorem C3_spectrum_buffer_lengths :
    initState.spectrum_gpu.length = num_fft_samples
    ∧ num_fft_samples = notify_samples_magnitude / 2 + 1
    ∧ (∀ x : List ℚ, x.length = notify_samples_magnitude →
        (rfft x).length = num_fft_samples)
    ∧ (∀ (amp : ℚ) (maxv : ℤ) (s : LoopState) (raw : List ℤ),
        raw.length = notify_samples_magnitude →
          (step amp maxv s raw).spectrum_gpu.length = num_fft_samples
          ∧ (step amp maxv s raw).spectrum_cpu.length = num_fft_samples) := by
  refine ⟨by simp [initState], rfl, ?_, ?_⟩
  · intro x hx
    simp [rfft, hx, num_fft_samples]
  · intro amp maxv s raw hraw
    constructor <;>
      simp [step, kernel_fft_to_spectrum, rfft, kernel_signal_to_volt, hraw,
        num_fft_samples]

/-- C3 witness: instantiated on an all-zero block of the notify length. -/
theorem C3_spectrum_buffer_lengths_witness :
    (rfft (List.replicate notify_samples_magnitude 0)).length = num_fft_samples
    ∧ (step 1 32767 initState
        (List.replicate notify_samples_magnitude 0)).spectrum_gpu.length
        = num_fft_samples := by
  refine ⟨C3_spectrum_buffer_lengths.2.2.1 _ (by simp),
    (C3_spectrum_buffer_lengths.2.2.2 1 32767 initState _ (by simp)).1⟩

/-- C4: in every loop pass the stages consume each other's outputs in the
fixed order raw block → volt kernel → FFT → spectrum kernel → host copy. -/
theorem C4_pipeline_order (amp : ℚ) (maxv : ℤ) (s : LoopState)
    (raw : List ℤ) :
    (step amp maxv s raw).data_volt_gpu
        = kernel_signal_to_volt raw (factor_signal_to_volt amp maxv)
    ∧ (step amp maxv s raw).spectrum_gpu
        = kernel_fft_to_spectrum
            (rfft (kernel_signal_to_volt raw (factor_signal_to_volt amp maxv)))
            notify_samples_magnitude ((amp : ℝ))
    ∧ (step amp maxv s raw).spectrum_cpu = (step amp maxv s raw).spectrum_gpu :=
  ⟨rfl, rfl, rfl⟩

/-- C5: in every loop pass the paired buffers have matching lengths: the
voltage buffer is as long as the raw block, the spectrum buffer is as long as
the complex FFT output it consumes, and for a block of the notify length `N`
these are `N` and `N/2 + 1`. -/
theorem C5_matching_lengths (amp : ℚ) (maxv : ℤ) (s : LoopState)
    (raw : List ℤ) :
    (step amp maxv s raw).data_volt_gpu.length = raw.length
    ∧ (step amp maxv s raw).spectrum_gpu.length
        = (rfft (kernel_signal_to_volt raw
            (factor_signal_to_volt amp maxv))).length
    ∧ (raw.length = notify_samples_magnitude →
        (step amp maxv s raw).data_volt_gpu.length = notify_samples_magnitude
        ∧ (step amp maxv s raw).spectrum_gpu.length
            = notify_samples_magnitude / 2 + 1) := by
  refine ⟨by simp [step, kernel_signal_to_volt], by
    simp [step, kernel_fft_to_spectrum], ?_⟩
  intro hraw
  constructor <;>
    simp [step, kernel_fft_to_spectrum, rfft, kernel_signal_to_volt, hraw]

/-- C5 witness: instantiated on an all-zero block of the notify length. -/
theorem C5_matching_lengths_witness :
    (step 1 32767 initState
        (List.replicate notify_samples_magnitude 0)).data_volt_gpu.length
      = notify_samples_magnitude
    ∧ (step 1 32767 initState
        (List.replicate notify_samples_magnitude 0)).spectrum_gpu.length
      = notify_samples_magnitude / 2 + 1 :=
  (C5_matching_lengths 1 32767 initState
    (List.replicate notify_samples_magnitude 0)).2.2 (by simp)

/-- C6: the plot refresh is periodic with period `plot_divider = 10`: the
line's Y-data is replaced by the fresh host spectrum and a redraw happens
exactly when the zero-based counter is a multiple of 10, the plotted data is
untouched otherwise, while the kernels and the host copy run every pass; the
counter counts the completed passes starting from 0. -/
theorem C6_plot_period (amp : ℚ) (maxv : ℤ) (s : LoopState) (raw : List ℤ)
    (blocks : List (List ℤ)) :
    plot_divider = 10
    ∧ (s.counter % plot_divider = 0 →
        (step amp maxv s raw).line_ydata = (step amp maxv s raw).spectrum_cpu
        ∧ (step amp maxv s raw).draw_count = s.draw_count + 1)
    ∧ (s.counter % plot_divider ≠ 0 →
        (step amp maxv s raw).line_ydata = s.line_ydata
        ∧ (step amp maxv s raw).draw_count = s.draw_count)
    ∧ (step amp maxv s raw).spectrum_cpu
        = kernel_fft_to_spectrum
            (rfft (kernel_signal_to_volt raw (factor_signal_to_volt amp maxv)))
            notify_samples_magnitude ((amp : ℝ))
    ∧ (run amp maxv initState blocks).counter = blocks.length := by
  refine ⟨rfl, ?_, ?_, rfl, ?_⟩
  · intro h
    constructor <;> simp [step, h]
  · intro h
    constructor <;> simp [step, h]
  · simpa [initState] using run_counter amp maxv blocks initState

/-- C6 witness: on the very first pass (counter 0) the line is refreshed and
one redraw is performed. -/
theorem C6_plot_period_witness :
    (step 1 32767 initState []).line_ydata
        = (step 1 32767 initState []).spectrum_cpu
    ∧ (step 1 32767 initState []).draw_count = initState.draw_count + 1 :=
  (C6_plot_period 1 32767 initState [] []).2.1 (by decide)

/-- C7 counterexample: it is not true that nothing besides the buffers and
the iteration counter is modified by a loop pass: the plotted line's Y-data
is script-owned state too, and the pass with counter 0 replaces it. -/
theorem C7_counterexample :
    ¬ (∀ (amp : ℚ) (maxv : ℤ) (s : LoopState) (raw : List ℤ),
        (step amp maxv s raw).line_ydata = s.line_ydata) := by
  intro h
  have h0 := h 1 1 ⟨[], [], [], [], 0, 0⟩ [0]
  have hlen := congrArg List.length h0
  simp [step, kernel_fft_to_spectrum, rfft, kernel_signal_to_volt,
    plot_divider] at hlen

/-- C7 amended: every buffer is fully overwritten each pass with values that
depend only on the incoming raw block and the configuration, never on any
earlier iteration's buffer contents; the counter is incremented; and besides
the counter the only other script state touched is the plotted line (and its
redraw), which is left unchanged whenever the counter is not a multiple of
`plot_divider`. -/
theorem C7_frame_effect (amp : ℚ) (maxv : ℤ) (s : LoopState) (raw : List ℤ) :
    (step amp maxv s raw).data_volt_gpu
        = kernel_signal_to_volt raw (factor_signal_to_volt amp maxv)
    ∧ (step amp maxv s raw).spectrum_gpu
        = kernel_fft_to_spectrum
            (rfft (kernel_signal_to_volt raw (factor_signal_to_volt amp maxv)))
            notify_samples_magnitude ((amp : ℝ))
    ∧ (step amp maxv s raw).spectrum_cpu = (step amp maxv s raw).spectrum_gpu
    ∧ (step amp maxv s raw).counter = s.counter + 1
    ∧ (s.counter % plot_divider ≠ 0 →
        (step amp maxv s raw).line_ydata = s.line_ydata
        ∧ (step amp maxv s raw).draw_count = s.draw_count) := by
  refine ⟨rfl, rfl, rfl, rfl, ?_⟩
  intro h
  constructor <;> simp [step, h]

/-- C7 witness: a pass whose counter is 1 leaves the plotted line alone. -/
theorem C7_frame_effect_witness :
    (step 1 1 ⟨[], [], [], [], 0, 1⟩ [0]).line_ydata = []
    ∧ (step 1 1 ⟨[], [], [], [], 0, 1⟩ [0]).counter = 2 := by
  have h := C7_frame_effect 1 1 ⟨[], [], [], [], 0, 1⟩ [0]
  exact ⟨(h.2.2.2.2 (by decide)).1, h.2.2.2.1⟩

/-- C9: the frequency axis `np.fft.rfftfreq(N, 1/sample_rate)` has the same
`N/2 + 1` points as the spectrum arrays, the line's initial Y-data matches
it, and every plot update on a notify-length block supplies Y-data of that
same length. -/
theorem C9_freq_axis_length (sr : ℝ) (amp : ℚ) (maxv : ℤ) (s : LoopState)
    (raw : List ℤ) :
    (freq sr).length = num_fft_samples
    ∧ initState.line_ydata.length = (freq sr).length
    ∧ (raw.length = notify_samples_magnitude → s.counter % plot_divider = 0 →
        (step amp maxv s raw).line_ydata.length = (freq sr).length) := by
  have hf : (freq sr).length = num_fft_samples := by
    rw [freq, rfftfreq, List.length_map, List.length_range, num_fft_samples]
  refine ⟨hf, by simp [initState, hf], ?_⟩
  intro hraw hc
  rw [hf]
  simp [step, hc, kernel_fft_to_spectrum, rfft, kernel_signal_to_volt, hraw,
    num_fft_samples]

/-- C9 witness: on the first pass over an all-zero notify-length block. -/
theorem C9_freq_axis_length_witness :
    (step 1 32767 initState
        (List.replicate notify_samples_magnitude 0)).line_ydata.length
      = (freq 10).length :=
  (C9_freq_axis_length 10 1 32767 initState
    (List.replicate notify_samples_magnitude 0)).2.2 (by simp) (by decide)

/-- C8: the script performs no recovery, retry or translation of failures:
whichever SDK or GPU-library call fails first (device open, configuration,
transfer setup, kernel compilation, card start, or the acquisition loop
itself), its error is the script's result unchanged; and when every call
succeeds the script's result is the processing of the acquired blocks. -/
theorem C8_error_propagation {E : Type} (sdk : SdkCalls E) (e : E)
    (amp sr : ℚ) (maxv : ℤ) (blocks : List (List ℤ)) :
    (sdk.open_card = .error e → script sdk = .error e)
    ∧ (sdk.open_card = .ok () → sdk.card_mode = .error e →
        script sdk = .error e)
    ∧ (sdk.open_card = .ok () → sdk.card_mode = .ok () →
        sdk.set_timeout = .error e → script sdk = .error e)
    ∧ (sdk.open_card = .ok () → sdk.card_mode = .ok () →
        sdk.set_timeout = .ok () → sdk.trigger_or_mask = .error e →
        script sdk = .error e)
    ∧ (sdk.open_card = .ok () → sdk.card_mode = .ok () →
        sdk.set_timeout = .ok () → sdk.trigger_or_mask = .ok () →
        sdk.channel_amp = .error e → script sdk = .error e)
    ∧ (sdk.open_card = .ok () → sdk.card_mode = .ok () →
        sdk.set_timeout = .ok () → sdk.trigger_or_mask = .ok () →
        sdk.channel_amp = .ok amp → sdk.max_sample_value = .error e →
        script sdk = .error e)
    ∧ (sdk.open_card = .ok () → sdk.card_mode = .ok () →
        sdk.set_timeout = .ok () → sdk.trigger_or_mask = .ok () →
        sdk.channel_amp = .ok amp → sdk.max_sample_value = .ok maxv →
        sdk.clock_mode = .error e → script sdk = .error e)
    ∧ (sdk.open_card = .ok () → sdk.card_mode = .ok () →
        sdk.set_timeout = .ok () → sdk.trigger_or_mask = .ok () →
        sdk.channel_amp = .ok amp → sdk.max_sample_value = .ok maxv →
        sdk.clock_mode = .ok () → sdk.sample_rate = .error e →
        script sdk = .error e)
    ∧ (sdk.open_card = .ok () → sdk.card_mode = .ok () →
        sdk.set_timeout = .ok () → sdk.trigger_or_mask = .ok () →
        sdk.channel_amp = .ok amp → sdk.max_sample_value = .ok maxv →
        sdk.clock_mode = .ok () → sdk.sample_rate = .ok sr →
        sdk.transfer_setup = .error e → script sdk = .error e)
    ∧ (sdk.open_card = .ok () → sdk.card_mode = .ok () →
        sdk.set_timeout = .ok () → sdk.trigger_or_mask = .ok () →
        sdk.channel_amp = .ok amp → sdk.max_sample_value = .ok maxv →
        sdk.clock_mode = .ok () → sdk.sample_rate = .ok sr →
        sdk.transfer_setup = .ok () → sdk.compile_kernels = .error e →
        script sdk = .error e)
    ∧ (sdk.open_card = .ok () → sdk.card_mode = .ok () →
        sdk.set_timeout = .ok () → sdk.trigger_or_mask = .ok () →
        sdk.channel_amp = .ok amp → sdk.max_sample_value = .ok maxv →
        sdk.clock_mode = .ok () → sdk.sample_rate = .ok sr →
        sdk.transfer_setup = .ok () → sdk.compile_kernels = .ok () →
        sdk.card_start = .error e → script sdk = .error e)
    ∧ (sdk.open_card = .ok () → sdk.card_mode = .ok () →
        sdk.set_timeout = .ok () → sdk.trigger_or_mask = .ok () →
        sdk.channel_amp = .ok amp → sdk.max_sample_value = .ok maxv →
        sdk.clock_mode = .ok () → sdk.sample_rate = .ok sr →
        sdk.transfer_setup = .ok () → sdk.compile_kernels = .ok () →
        sdk.card_start = .ok () → sdk.acquire = .error e →
        script sdk = .error e)
    ∧ (sdk.open_card = .ok () → sdk.card_mode = .ok () →
        sdk.set_timeout = .ok () → sdk.trigger_or_mask = .ok () →
        sdk.channel_amp = .ok amp → sdk.max_sample_value = .ok maxv →
        sdk.clock_mode = .ok () → sdk.sample_rate = .ok sr →
        sdk.transfer_setup = .ok () → sdk.compile_kernels = .ok () →
        sdk.card_start = .ok () → sdk.acquire = .ok blocks →
        script sdk = .ok (run amp maxv initState blocks)) := by
  refine ⟨?_, ?_, ?_, ?_, ?_, ?_, ?_, ?_, ?_, ?_, ?_, ?_, ?_⟩ <;>
    · intros
      simp only [script, ok_bind, error_bind, pure, Except.pure, *]

/-- C8 witness: a trace whose acquisition fails with error 7 (all earlier
calls succeeding) makes the whole script return exactly error 7. -/
theorem C8_error_propagation_witness : script sdkTimeout = .error 7 :=
  (C8_error_propagation sdkTimeout 7 1 10 32767
      []).2.2.2.2.2.2.2.2.2.2.2.1
    rfl rfl rfl rfl rfl rfl rfl rfl rfl rfl rfl rfl

/-- C10: full-scale round trip of `signal_to_volt` with
`voltPerLSB = factor_signal_to_volt`: the maximum digital sample value maps
exactly to the configured amplitude in volts, 0 maps to 0 V, and the
conversion is additive (linear). -/
theorem C10_full_scale_round_trip (amp : ℚ) (maxv : ℤ) (h : maxv ≠ 0) :
    signal_to_volt maxv (factor_signal_to_volt amp maxv) = amp
    ∧ signal_to_volt 0 (factor_signal_to_volt amp maxv) = 0
    ∧ (∀ x y : ℤ, signal_to_volt (x + y) (factor_signal_to_volt amp maxv)
        = signal_to_volt x (factor_signal_to_volt amp maxv)
          + signal_to_volt y (factor_signal_to_volt amp maxv)) := by
  have hm : (maxv : ℚ) ≠ 0 := Int.cast_ne_zero.mpr h
  refine ⟨?_, ?_, ?_⟩
  · rw [signal_to_volt, factor_signal_to_volt]
    field_simp
  · simp [signal_to_volt]
  · intro x y
    simp only [signal_to_volt]
    push_cast
    ring

/-- C10 witness: with amplitude 1 V and maximum sample value 32767. -/
theorem C10_full_scale_round_trip_witness :
    signal_to_volt 32767 (factor_signal_to_volt 1 32767) = 1
    ∧ signal_to_volt 0 (factor_signal_to_volt 1 32767) = 0 := by
  have h := C10_full_scale_round_trip 1 32767 (by decide)
  exact ⟨h.1, h.2.1⟩

end Scapp
